import Mathlib

/-
Verification development for the lead-capture form controller in
src/components/LeadCaptureForm.tsx.

The component is a client-side submit-flow controller. Its state hooks
(formData, validationErrors, submitted, isSubmitting, isResendingEmail,
leadError, emailError, leads) are embedded as an explicit record
ControllerState, and each event handler (handleSubmit, resendEmail) is
embedded as a pure state-transformer. The two remote collaborators
(the supabase insert behind saveLead and the supabase function invocation
behind sendConfirmationEmail) are external: their outcome on a given call
is a parameter of type RemoteBehavior, covering the three ways the awaited
promise can behave at the wrapper's interface — resolve with a null error
field, resolve with a truthy error value, or throw. JavaScript error
values are abstracted to ErrValue, which records exactly what the code
inspects: whether the value is an object, whether it has a message
property, and what that property holds.

To express claims of the form "the notifier is never invoked", each
handler additionally returns the list of remote calls it issued, in order,
with the payload each call carried; this trace component is
instrumentation and does not feed back into the state.
-/

/-- LeadInput as in the component: the three form fields. -/
structure LeadInput where
  name : String
  email : String
  industry : String
deriving DecidableEq, Repr

/-- One element of the leads session log: the input fields plus the
submitted_at timestamp (the code stores new Date().toISOString(); here the
timestamp is an opaque string supplied to handleSubmit). -/
structure SubmittedLead where
  name : String
  email : String
  industry : String
  submitted_at : String
deriving DecidableEq, Repr

/-- ValidationError as produced by validateLeadForm: a field name and a
message. -/
structure ValidationError where
  field : String
  message : String
deriving DecidableEq, Repr

/-- The uniform result shape of both remote-call wrappers:
success with no error field, or failure with an optional error string.
none models an absent error field. -/
structure OperationResult where
  success : Bool
  error : Option String
deriving DecidableEq, Repr

/-- Abstraction of a JavaScript error value, recording exactly what the
code observes: primitive covers any non-object (or null) value; obj none
is an object without a message property; obj (some none) is an object
whose message property is undefined; obj (some (some s)) is an object
whose message property is the string s. -/
inductive ErrValue where
  | primitive
  | obj (message : Option (Option String))
deriving DecidableEq, Repr

/-- How one awaited remote operation behaves at the wrapper boundary:
resolveOk — the promise resolves and the returned error field is null;
resolveErr e — the promise resolves and the returned error field is the
truthy value e; thrown e — the await throws the value e. -/
inductive RemoteBehavior where
  | resolveOk
  | resolveErr (e : ErrValue)
  | thrown (e : ErrValue)
deriving DecidableEq, Repr

/-- A remote behavior counts as failing when the wrapper will report
success = false on it, that is, anything but resolveOk. -/
def RemoteBehavior.fails : RemoteBehavior → Bool
  | .resolveOk => false
  | .resolveErr _ => true
  | .thrown _ => true

/-- One remote invocation recorded in a trace, with the payload sent. -/
inductive RemoteCall where
  | save (payload : LeadInput)
  | email (payload : LeadInput)
deriving DecidableEq, Repr

/-- The component state: one field per useState hook of LeadCaptureForm. -/
structure ControllerState where
  formData : LeadInput
  validationErrors : List ValidationError
  submitted : Bool
  isSubmitting : Bool
  isResendingEmail : Bool
  leadError : Option String
  emailError : Option String
  leads : List SubmittedLead
deriving DecidableEq, Repr

/-- JavaScript truthiness-based defaulting x || fallback for
x : string | undefined: undefined and the empty string are falsy and give
the fallback, any other string is returned as is. -/
def jsOrString (x : Option String) (fallback : String) : String :=
  match x with
  | none => fallback
  | some s => if s = "" then fallback else s

/-- Property access e.message on a JavaScript value as typed in the code
(message?: string): undefined for a primitive, for an object without the
property, and for an object whose message is undefined; the string
otherwise. -/
def errMessage : ErrValue → Option String
  | .primitive => none
  | .obj none => none
  | .obj (some m) => m

/-- getErrorMessage from the component: reads err.message when err is an
object carrying one (undefined otherwise) and returns message ||
fallbackMessage. In the source fallbackMessage defaults to
"Unexpected error occurred."; here it is always passed explicitly. -/
def getErrorMessage (err : ErrValue) (fallbackMessage : String) : String :=
  let message : Option String :=
    match err with
    | .primitive => none
    | .obj none => none
    | .obj (some m) => m
  jsOrString message fallbackMessage

/-- saveLead from the component: awaits the insert into the leads table.
If it resolves with a truthy error, returns success false with
error.message || "Failed to save lead."; if it resolves cleanly, returns
success true with no error; if it throws, catches and returns success
false with getErrorMessage of the thrown value. The data argument is the
payload sent to the remote table. -/
def saveLead (data : LeadInput) (b : RemoteBehavior) : OperationResult :=
  match b with
  | .resolveOk => { success := true, error := none }
  | .resolveErr e =>
      { success := false,
        error := some (jsOrString (errMessage e) "Failed to save lead.") }
  | .thrown e =>
      { success := false,
        error := some (getErrorMessage e "Unexpected error while saving lead.") }

/-- sendConfirmationEmail from the component: awaits the invocation of the
send-confirmation function. Same shape as saveLead with its own fallback
messages. -/
def sendConfirmationEmail (data : LeadInput) (b : RemoteBehavior) : OperationResult :=
  match b with
  | .resolveOk => { success := true, error := none }
  | .resolveErr e =>
      { success := false,
        error := some (jsOrString (errMessage e) "Failed to send confirmation email.") }
  | .thrown e =>
      { success := false,
        error := some (getErrorMessage e "Unexpected error while sending email.") }

/-- The cleared form the code writes back after a successful submit. -/
def emptyForm : LeadInput := { name := "", email := "", industry := "" }

/-- handleSubmit from the component, as a state transformer. Arguments:
the pre-state, the list errors returned by validateLeadForm on the current
formData (the validator lives outside this repository), the behavior of
the persistence call and of the notification call for this submit, and
the timestamp now produced for submitted_at. Returns the post-state and
the trace of remote calls issued. The code first clears both error
channels and stores the validation errors; if any validation error
exists it returns before any remote call. Otherwise it sets isSubmitting,
runs saveLead — on failure it sets leadError (with a page-level fallback
applied to the result's error) and returns — then runs
sendConfirmationEmail — on failure it sets emailError but proceeds — then
appends the lead to the session log, marks submitted and clears the form.
The finally block resets isSubmitting on every path that reached it. The
outer catch is unreachable because both wrappers catch internally and
return plain results. -/
def handleSubmit (s : ControllerState) (errors : List ValidationError)
    (saveB emailB : RemoteBehavior) (now : String) :
    ControllerState × List RemoteCall :=
  let s0 := { s with leadError := none, emailError := none,
                     validationErrors := errors }
  if errors.length > 0 then (s0, [])
  else
    let s1 := { s0 with isSubmitting := true }
    let saveResult := saveLead s1.formData saveB
    if saveResult.success = false then
      ({ s1 with
           leadError := some (jsOrString saveResult.error
             "Failed to save your information. Please try again."),
           isSubmitting := false },
       [RemoteCall.save s1.formData])
    else
      let emailResult := sendConfirmationEmail s1.formData emailB
      let s2 :=
        if emailResult.success = false then
          { s1 with
              emailError := some (jsOrString emailResult.error
                "We could not send a confirmation email right now.") }
        else s1
      let lead : SubmittedLead :=
        { name := s2.formData.name, email := s2.formData.email,
          industry := s2.formData.industry, submitted_at := now }
      ({ s2 with
           leads := s2.leads ++ [lead],
           submitted := true,
           formData := emptyForm,
           isSubmitting := false },
       [RemoteCall.save s1.formData, RemoteCall.email s1.formData])

/-- resendEmail from the component, as a state transformer. If the
session log is empty it returns immediately (guard: if (!leads.length)
return). Otherwise it sets isResendingEmail, clears emailError, reads the
last lead of the log, re-invokes sendConfirmationEmail with that lead's
fields, on failure sets emailError to the result's error with the resend
fallback, and in the finally block resets isResendingEmail. The catch
around the await is unreachable because sendConfirmationEmail catches
internally. -/
def resendEmail (s : ControllerState) (emailB : RemoteBehavior) :
    ControllerState × List RemoteCall :=
  match s.leads.getLast? with
  | none => (s, [])
  | some lastLead =>
      let payload : LeadInput :=
        { name := lastLead.name, email := lastLead.email,
          industry := lastLead.industry }
      let s1 := { s with isResendingEmail := true, emailError := none }
      let result := sendConfirmationEmail payload emailB
      let s2 :=
        if result.success = false then
          { s1 with
              emailError := some (jsOrString result.error
                "Still unable to send the confirmation email.") }
        else s1
      ({ s2 with isResendingEmail := false }, [RemoteCall.email payload])

/-- The state the controller is in at resendEmail's suspension point:
after setIsResendingEmail(true) and setEmailError(null) have taken effect
and while the awaited notification call is outstanding. -/
def resendSuspendedState (s : ControllerState) : ControllerState :=
  { s with isResendingEmail := true, emailError := none }

/-- The Retry Email button renders with disabled set to isResendingEmail,
so the click event reaches resendEmail only when isResendingEmail is
false: a click while a resend is outstanding changes nothing and issues
no call. -/
def clickRetryEmail (s : ControllerState) (emailB : RemoteBehavior) :
    ControllerState × List RemoteCall :=
  if s.isResendingEmail then (s, []) else resendEmail s emailB

/-- A concrete state used to instantiate hypothesised theorems: the
controller as rendered just before the example submit of the spec, with
the Ana input filled in and an empty session log. -/
def sampleState : ControllerState :=
  { formData := { name := "Ana", email := "ana@x.com", industry := "finance" },
    validationErrors := [],
    submitted := false,
    isSubmitting := false,
    isResendingEmail := false,
    leadError := none,
    emailError := none,
    leads := [] }

/-- A submitted lead matching the worked example of the spec. -/
def anaLead : SubmittedLead :=
  { name := "Ana", email := "ana@x.com", industry := "finance",
    submitted_at := "T" }

/-- The controller after the example submit whose notification failed:
submitted view shown, one lead logged, emailError carrying the failure. -/
def submittedState : ControllerState :=
  { sampleState with
      submitted := true,
      formData := emptyForm,
      emailError := some "rate limited",
      leads := [anaLead] }

/-- getErrorMessage coincides with jsOrString applied to the message read
off the error value: the ternary inside the helper observes exactly the
message property. -/
lemma getErrorMessage_eq_jsOr (e : ErrValue) (fb : String) :
    getErrorMessage e fb = jsOrString (errMessage e) fb := by
  cases e with
  | primitive => rfl
  | obj m => cases m <;> rfl

/-- jsOrString never returns the empty string when its fallback is
nonempty. -/
lemma jsOrString_ne_empty (x : Option String) (fb : String) (h : fb ≠ "") :
    jsOrString x fb ≠ "" := by
  cases x with
  | none => simpa [jsOrString] using h
  | some s =>
      by_cases hs : s = "" <;> simp [jsOrString, hs, h]

/-- jsOrString keeps a nonempty string unchanged. -/
lemma jsOrString_some_of_ne (x fb : String) (h : x ≠ "") :
    jsOrString (some x) fb = x := by
  simp [jsOrString, h]

/-- Claim C1: for every valid LeadInput (validator returned no errors),
when the persistence call fails (resolves with a truthy error or throws),
handleSubmit leaves the session log unchanged, sets the critical leadError
channel, never invokes the email notification call (the trace is exactly
the one save call), and leaves the submitted display flag as it was, so
the display state does not become submitted. -/
theorem handleSubmit_persist_failure (s : ControllerState)
    (b emailB : RemoteBehavior) (now : String) (h : b.fails = true) :
    (handleSubmit s [] b emailB now).1.leads = s.leads ∧
    (handleSubmit s [] b emailB now).1.leadError.isSome = true ∧
    (handleSubmit s [] b emailB now).2 = [RemoteCall.save s.formData] ∧
    (∀ p, RemoteCall.email p ∉ (handleSubmit s [] b emailB now).2) ∧
    (handleSubmit s [] b emailB now).1.submitted = s.submitted := by
  cases b with
  | resolveOk => simp [RemoteBehavior.fails] at h
  | resolveErr e => simp [handleSubmit, saveLead]
  | thrown e => simp [handleSubmit, saveLead]

/-- Witness for C1: the Ana state with a persistence error carrying the
message db down: the log stays empty, a critical error is set, only the
save call was issued, and the view stays unsubmitted. -/
theorem handleSubmit_persist_failure_witness :
    (handleSubmit sampleState []
        (.resolveErr (.obj (some (some "db down")))) .resolveOk "T").1.leads = [] ∧
    (handleSubmit sampleState []
        (.resolveErr (.obj (some (some "db down")))) .resolveOk "T").1.leadError.isSome = true ∧
    (handleSubmit sampleState []
        (.resolveErr (.obj (some (some "db down")))) .resolveOk "T").2 =
      [RemoteCall.save { name := "Ana", email := "ana@x.com", industry := "finance" }] ∧
    (handleSubmit sampleState []
        (.resolveErr (.obj (some (some "db down")))) .resolveOk "T").1.submitted = false := by
  obtain ⟨h1, h2, h3, _, h5⟩ :=
    handleSubmit_persist_failure sampleState
      (.resolveErr (.obj (some (some "db down")))) .resolveOk "T" (by decide)
  exact ⟨h1.trans (by decide), h2, h3.trans (by decide), h5.trans (by decide)⟩

/-- Claim C2: for every valid LeadInput, when both the persistence call
and the notification call succeed, handleSubmit appends exactly one
SubmittedLead (the form data with the submission timestamp) to the session
log, sets neither leadError nor emailError, sets the submitted display
flag, and clears the input form fields. -/
theorem handleSubmit_success_path (s : ControllerState) (now : String) :
    (handleSubmit s [] .resolveOk .resolveOk now).1.leads =
      s.leads ++ [{ name := s.formData.name, email := s.formData.email,
                    industry := s.formData.industry, submitted_at := now }] ∧
    (handleSubmit s [] .resolveOk .resolveOk now).1.leadError = none ∧
    (handleSubmit s [] .resolveOk .resolveOk now).1.emailError = none ∧
    (handleSubmit s [] .resolveOk .resolveOk now).1.submitted = true ∧
    (handleSubmit s [] .resolveOk .resolveOk now).1.formData = emptyForm := by
  simp [handleSubmit, saveLead, sendConfirmationEmail]

/-- Claim C3: for every valid LeadInput, when persistence succeeds and the
notification call fails with a nonempty message m, handleSubmit appends
exactly one SubmittedLead to the session log, leaves the critical
leadError channel clear, and sets the non-critical emailError channel to
m. The spec's worked example is the witness below. -/
theorem handleSubmit_email_failure (s : ControllerState) (now m : String)
    (hm : m ≠ "") :
    (handleSubmit s [] .resolveOk (.resolveErr (.obj (some (some m)))) now).1.leads =
      s.leads ++ [{ name := s.formData.name, email := s.formData.email,
                    industry := s.formData.industry, submitted_at := now }] ∧
    (handleSubmit s [] .resolveOk (.resolveErr (.obj (some (some m)))) now).1.leadError = none ∧
    (handleSubmit s [] .resolveOk (.resolveErr (.obj (some (some m)))) now).1.emailError = some m ∧
    (handleSubmit s [] .resolveOk (.resolveErr (.obj (some (some m)))) now).1.submitted = true := by
  simp [handleSubmit, saveLead, sendConfirmationEmail, errMessage, jsOrString, hm]

/-- Witness for C3: the spec example — input Ana/ana@x.com/finance,
persistence success, notification failure rate limited, timestamp T —
yields the one-element session log, a clear leadError and emailError set
to rate limited. -/
theorem handleSubmit_email_failure_witness :
    (handleSubmit sampleState [] .resolveOk
        (.resolveErr (.obj (some (some "rate limited")))) "T").1.leads = [anaLead] ∧
    (handleSubmit sampleState [] .resolveOk
        (.resolveErr (.obj (some (some "rate limited")))) "T").1.leadError = none ∧
    (handleSubmit sampleState [] .resolveOk
        (.resolveErr (.obj (some (some "rate limited")))) "T").1.emailError =
      some "rate limited" := by
  obtain ⟨h1, h2, h3, _⟩ :=
    handleSubmit_email_failure sampleState "T" "rate limited" (by decide)
  exact ⟨h1.trans (by decide), h2, h3⟩

/-- Claim C4: for every state whose session log is non-empty (its last
element is lastLead), resendEmail re-invokes the email notifier exactly
once, with exactly the most recently submitted lead's fields, and leaves
the session log unchanged; when the notifier succeeds the emailError
channel ends null, when it fails the channel is set (and when the failure
carries a nonempty message m, it is set to exactly m). -/
theorem resendEmail_last_lead (s : ControllerState) (b : RemoteBehavior)
    (lastLead : SubmittedLead) (h : s.leads.getLast? = some lastLead) :
    (resendEmail s b).2 =
      [RemoteCall.email { name := lastLead.name, email := lastLead.email,
                          industry := lastLead.industry }] ∧
    (resendEmail s b).1.leads = s.leads ∧
    (b = .resolveOk → (resendEmail s b).1.emailError = none) ∧
    (b.fails = true → (resendEmail s b).1.emailError.isSome = true) ∧
    (∀ m, m ≠ "" → b = .resolveErr (.obj (some (some m))) →
      (resendEmail s b).1.emailError = some m) := by
  cases b with
  | resolveOk => simp [resendEmail, h, sendConfirmationEmail, RemoteBehavior.fails]
  | resolveErr e =>
      refine ⟨?_, ?_, ?_, ?_, ?_⟩ <;>
        simp [resendEmail, h, sendConfirmationEmail, RemoteBehavior.fails]
      intro m hm he
      subst he
      simp [errMessage, jsOrString, hm]
  | thrown e => simp [resendEmail, h, sendConfirmationEmail, RemoteBehavior.fails]

/-- Witness for C4: from the post-example state whose log holds the one
Ana lead, a successful resend issues exactly one email call carrying the
Ana fields, leaves the log unchanged and ends with emailError null. -/
theorem resendEmail_last_lead_witness :
    (resendEmail submittedState .resolveOk).2 =
      [RemoteCall.email { name := "Ana", email := "ana@x.com",
                          industry := "finance" }] ∧
    (resendEmail submittedState .resolveOk).1.leads = [anaLead] ∧
    (resendEmail submittedState .resolveOk).1.emailError = none := by
  obtain ⟨h1, h2, h3, _, _⟩ :=
    resendEmail_last_lead submittedState .resolveOk anaLead (by decide)
  exact ⟨h1.trans (by decide), h2.trans (by decide), h3 rfl⟩

/-- Claim C5: the resend action is guarded so only one resend is in
flight: the Retry Email button is disabled while isResendingEmail holds,
so a click in any state where a resend is outstanding changes nothing and
issues no notifier call; and resendEmail's own suspension point (captured
by resendSuspendedState) does have isResendingEmail set, so the guard is
active for the whole time the awaited call is outstanding. -/
theorem resend_single_flight_guard (s : ControllerState)
    (b : RemoteBehavior) (h : s.isResendingEmail = true) :
    clickRetryEmail s b = (s, []) ∧
    (resendSuspendedState s).isResendingEmail = true := by
  simp [clickRetryEmail, h, resendSuspendedState]

/-- Witness for C5: at the suspension point of a resend started from the
post-example state, a second click is a no-op with an empty call trace. -/
theorem resend_single_flight_guard_witness :
    clickRetryEmail (resendSuspendedState submittedState) .resolveOk =
      (resendSuspendedState submittedState, []) ∧
    (resendSuspendedState (resendSuspendedState submittedState)).isResendingEmail = true := by
  exact resend_single_flight_guard (resendSuspendedState submittedState)
    .resolveOk (by decide)

/-- Claim C6: for every LeadInput on which the validator returns a
non-empty error list, handleSubmit stores the per-field validation
messages, performs no remote call at all (empty trace, so neither the
persistence client nor the email notifier is invoked), and the session
log gains no element. -/
theorem handleSubmit_invalid_input (s : ControllerState)
    (errors : List ValidationError) (saveB emailB : RemoteBehavior)
    (now : String) (h : errors ≠ []) :
    (handleSubmit s errors saveB emailB now).2 = [] ∧
    (handleSubmit s errors saveB emailB now).1.leads = s.leads ∧
    (handleSubmit s errors saveB emailB now).1.validationErrors = errors := by
  have hlen : errors.length > 0 := List.length_pos.mpr h
  simp [handleSubmit, hlen]

/-- Witness for C6: submitting the Ana state with one validation error on
the email field issues no remote call, leaves the log empty and exposes
that error. -/
theorem handleSubmit_invalid_input_witness :
    (handleSubmit sampleState [{ field := "email", message := "Invalid email" }]
        .resolveOk .resolveOk "T").2 = [] ∧
    (handleSubmit sampleState [{ field := "email", message := "Invalid email" }]
        .resolveOk .resolveOk "T").1.leads = [] ∧
    (handleSubmit sampleState [{ field := "email", message := "Invalid email" }]
        .resolveOk .resolveOk "T").1.validationErrors =
      [{ field := "email", message := "Invalid email" }] := by
  obtain ⟨h1, h2, h3⟩ :=
    handleSubmit_invalid_input sampleState
      [{ field := "email", message := "Invalid email" }]
      .resolveOk .resolveOk "T" (by decide)
  exact ⟨h1, h2.trans (by decide), h3⟩

/-- Claim C7: for every payload and every behavior of the underlying
remote operation, the results of both wrappers satisfy the
OperationResult invariant: success is true exactly when no error field is
set, so an error is present only on failure and never on success. -/
theorem operationResult_invariant (data : LeadInput) (b : RemoteBehavior) :
    ((saveLead data b).success = true ↔ (saveLead data b).error = none) ∧
    ((sendConfirmationEmail data b).success = true ↔
      (sendConfirmationEmail data b).error = none) := by
  cases b <;> simp [saveLead, sendConfirmationEmail]

/-- Witness for C7: the invariant instantiated at the Ana payload with a
successful remote operation. -/
theorem operationResult_invariant_witness :
    ((saveLead sampleState.formData .resolveOk).success = true ↔
      (saveLead sampleState.formData .resolveOk).error = none) ∧
    ((sendConfirmationEmail sampleState.formData .resolveOk).success = true ↔
      (sendConfirmationEmail sampleState.formData .resolveOk).error = none) :=
  operationResult_invariant sampleState.formData .resolveOk

/-- Claim C8: every error surfaced on the leadError or emailError channel
is the normalization getErrorMessage computes on the underlying error
value with the fixed step-specific fallback: the helper returns the
carried message when it is a nonempty string and the fallback when the
value carries none (a non-object, a missing message property, an
undefined message, or an empty message); and on each failing path —
wrapper results for a resolved error as well as handleSubmit's two
channels for resolved errors and thrown values — the surfaced string is
exactly getErrorMessage of that error value. The resolved-error branches
spell the normalization inline as error.message with a fallback, which
coincides with the shared helper on every error value. -/
theorem error_normalization (e : ErrValue) (fb : String)
    (s : ControllerState) (now : String) :
    (∀ m, errMessage e = some m → m ≠ "" → getErrorMessage e fb = m) ∧
    (errMessage e = none → getErrorMessage e fb = fb) ∧
    (errMessage e = some "" → getErrorMessage e fb = fb) ∧
    (saveLead s.formData (.resolveErr e)).error =
      some (getErrorMessage e "Failed to save lead.") ∧
    (sendConfirmationEmail s.formData (.resolveErr e)).error =
      some (getErrorMessage e "Failed to send confirmation email.") ∧
    (handleSubmit s [] (.resolveErr e) .resolveOk now).1.leadError =
      some (getErrorMessage e "Failed to save lead.") ∧
    (handleSubmit s [] (.thrown e) .resolveOk now).1.leadError =
      some (getErrorMessage e "Unexpected error while saving lead.") ∧
    (handleSubmit s [] .resolveOk (.resolveErr e) now).1.emailError =
      some (getErrorMessage e "Failed to send confirmation email.") ∧
    (handleSubmit s [] .resolveOk (.thrown e) now).1.emailError =
      some (getErrorMessage e "Unexpected error while sending email.") := by
  refine ⟨?_, ?_, ?_, ?_, ?_, ?_, ?_, ?_, ?_⟩
  · intro m hm hne
    rw [getErrorMessage_eq_jsOr, hm, jsOrString_some_of_ne _ _ hne]
  · intro hm; rw [getErrorMessage_eq_jsOr, hm]; rfl
  · intro hm; rw [getErrorMessage_eq_jsOr, hm]; rfl
  · simp [saveLead, getErrorMessage_eq_jsOr]
  · simp [sendConfirmationEmail, getErrorMessage_eq_jsOr]
  · have hne := jsOrString_ne_empty (errMessage e) "Failed to save lead." (by decide)
    simp [handleSubmit, saveLead, getErrorMessage_eq_jsOr, jsOrString_some_of_ne _ _ hne]
  · have hne := jsOrString_ne_empty (errMessage e)
      "Unexpected error while saving lead." (by decide)
    simp [handleSubmit, saveLead, getErrorMessage_eq_jsOr, jsOrString_some_of_ne _ _ hne]
  · have hne := jsOrString_ne_empty (errMessage e)
      "Failed to send confirmation email." (by decide)
    simp [handleSubmit, saveLead, sendConfirmationEmail, getErrorMessage_eq_jsOr,
      jsOrString_some_of_ne _ _ hne]
  · have hne := jsOrString_ne_empty (errMessage e)
      "Unexpected error while sending email." (by decide)
    simp [handleSubmit, saveLead, sendConfirmationEmail, getErrorMessage_eq_jsOr,
      jsOrString_some_of_ne _ _ hne]

/-- Witness for C8: a carried message boom survives normalization, a
primitive thrown value and an empty message fall back, and the leadError
surfaced for a persistence error carrying boom is exactly boom. -/
theorem error_normalization_witness :
    getErrorMessage (ErrValue.obj (some (some "boom"))) "FB" = "boom" ∧
    getErrorMessage ErrValue.primitive "FB" = "FB" ∧
    getErrorMessage (ErrValue.obj (some (some ""))) "FB" = "FB" ∧
    (handleSubmit sampleState []
        (.resolveErr (ErrValue.obj (some (some "boom")))) .resolveOk "T").1.leadError =
      some "boom" := by
  refine ⟨?_, ?_, ?_, ?_⟩
  · exact (error_normalization (ErrValue.obj (some (some "boom"))) "FB"
      sampleState "T").1 "boom" rfl (by decide)
  · exact (error_normalization ErrValue.primitive "FB" sampleState "T").2.1 rfl
  · exact (error_normalization (ErrValue.obj (some (some ""))) "FB"
      sampleState "T").2.2.1 rfl
  · have h := (error_normalization (ErrValue.obj (some (some "boom"))) "FB"
      sampleState "T").2.2.2.2.2.1
    exact h.trans (by decide)

/-- Claim C9: the wrappers are total at their interface: whatever value
the underlying remote call throws, each wrapper catches it and returns an
OperationResult with success false and a string error; no exception
propagates to the caller (the wrappers are total functions into
OperationResult for every behavior, the thrown case included). -/
theorem wrappers_total (data : LeadInput) (e : ErrValue) :
    (saveLead data (.thrown e)).success = false ∧
    (saveLead data (.thrown e)).error =
      some (getErrorMessage e "Unexpected error while saving lead.") ∧
    (sendConfirmationEmail data (.thrown e)).success = false ∧
    (sendConfirmationEmail data (.thrown e)).error =
      some (getErrorMessage e "Unexpected error while sending email.") := by
  simp [saveLead, sendConfirmationEmail]

/-- Claim C10: when the session log is empty, resendEmail is a no-op: it
issues no remote call and returns the state completely unchanged. -/
theorem resendEmail_empty_noop (s : ControllerState) (b : RemoteBehavior)
    (h : s.leads = []) :
    resendEmail s b = (s, []) := by
  simp [resendEmail, h]

/-- Witness for C10: a resend from the Ana pre-submit state, whose log is
empty, changes nothing and issues no call. -/
theorem resendEmail_empty_noop_witness :
    resendEmail sampleState .resolveOk = (sampleState, []) :=
  resendEmail_empty_noop sampleState .resolveOk (by decide)
